import Mathlib

/-!
Verification of `hostparser` (src/src/main.rs): a rate-limited producer
reading hostnames from stdin, an spmc job queue, and a pool of workers
extracting the registrable domain of each host.

The embedding follows the source file. The `spmc` channel and the tokio
runtime are external crates; where their behaviour decides a claim it is
modelled from the spec (doc comments say so).
-/

namespace HostParser

/-- The `Job` struct (main.rs, lines 10–13): `host: Option<String>`. -/
structure Job where
  host : Option String
deriving Repr, DecidableEq

/-- Result of `TldExtractor::extract` on success (external `tldextract`
crate): optional domain and optional suffix, as used by `run_parser`. -/
structure TldResult where
  domain : Option String
  suffix : Option String
deriving Repr, DecidableEq

/-- Outcome of one iteration of the worker loop body on a received job:
`panic` models the `job.host.unwrap()` panic when `host` is `None`,
`skip` models the three `continue` branches (extract error, no domain,
no suffix), `output s` models the single `println!` of the root domain. -/
inductive WorkerStep where
  | panic : WorkerStep
  | skip : WorkerStep
  | output : String → WorkerStep
deriving Repr, DecidableEq

/-- Body of the `run_parser` loop (main.rs, lines 135–158), for one job,
against an extractor oracle `extract` standing for `ext.extract(&job_host)`.
The root domain is built as `domain ++ "." ++ suffix` (the three
`push_str` calls on lines 154–156). -/
def parseJob (extract : String → Except String TldResult) (job : Job) :
    WorkerStep :=
  match job.host with
  | none => WorkerStep.panic
  | some jobHost =>
    match extract jobHost with
    | Except.error _ => WorkerStep.skip
    | Except.ok e =>
      match e.domain with
      | none => WorkerStep.skip
      | some domain =>
        match e.suffix with
        | none => WorkerStep.skip
        | some suffix => WorkerStep.output (domain ++ "." ++ suffix)

/-- The `run_parser` receive loop (main.rs, lines 133–159) over the list of
jobs this worker receives before the channel closes. Returns the list of
printed lines, in order; `none` models a panic of the worker task. -/
def run_parser_loop (extract : String → Except String TldResult) :
    List Job → Option (List String)
  | [] => some []
  | job :: rest =>
    match parseJob extract job with
    | WorkerStep.panic => none
    | WorkerStep.skip => run_parser_loop extract rest
    | WorkerStep.output s =>
      Option.map (fun out => s :: out) (run_parser_loop extract rest)

/-- `NonZeroU32::new` (used on main.rs line 114): `none` iff the argument
is zero. -/
def nonZeroU32New (n : Nat) : Option Nat :=
  if n = 0 then none else some n

/-- The rate-limiter construction in `send_url` (main.rs line 114):
`RateLimiter::direct(Quota::per_second(NonZeroU32::new(rate).unwrap()))`.
`none` models the `unwrap` panic. -/
def rateLimiterInit (rate : Nat) : Option Nat :=
  nonZeroU32New rate

/-- State of the producer loop in `send_url`: the jobs successfully handed
to the channel, in order, and the number of rate-limiter permits consumed
(`lim.until_ready().await` calls, main.rs line 122). -/
structure ProducerState where
  sent : List Job
  permitsUsed : Nat
deriving Repr, DecidableEq

/-- The job constructed on main.rs lines 123–125:
`Job { host: Some(host.to_string().clone()) }`. -/
def mkJob (host : String) : Job :=
  { host := some host }

/-- The `send_url` read loop (main.rs, lines 120–129). Each element of
`lines` is one `lines.next()` result: `Except.error` is a failed read,
`Except.ok host` a successful one. `sendOk k` is the outcome of the k-th
`tx.send` attempt (`false` models `Err`: no consumers left). The loop body:
`line.unwrap()` (panics on a read error, modelled by `none`), then one
permit, then one send attempt; on send failure the job is dropped and the
loop continues (`continue`, main.rs lines 126–128). -/
def send_url (sendOk : Nat → Bool) :
    List (Except Unit String) → ProducerState → Option ProducerState
  | [], st => some st
  | line :: rest, st =>
    match line with
    | Except.error _ => none
    | Except.ok host =>
      if sendOk st.permitsUsed then
        send_url sendOk rest
          { sent := st.sent ++ [mkJob host], permitsUsed := st.permitsUsed + 1 }
      else
        send_url sendOk rest
          { sent := st.sent, permitsUsed := st.permitsUsed + 1 }

/-- Decimal value of a digit string, over its characters. -/
def digitsToNat (cs : List Char) : Nat :=
  cs.foldl (fun acc c => acc * 10 + (c.toNat - 48)) 0

/-- Rust `str::parse::<u32>` as used on main.rs lines 56, 64: an optional
leading `+` sign, then one or more ASCII digits, value below `2^32`;
anything else is a parse error (`none`). -/
def parseU32 (s : String) : Option Nat :=
  let body := match s.data with
    | '+' :: rest => rest
    | cs => cs
  if body.length > 0 && body.all Char.isDigit then
    if digitsToNat body < 2 ^ 32 then some (digitsToNat body) else none
  else none

/-- Rust `str::parse::<usize>` as used on main.rs line 72 (64-bit target):
same shape as `parseU32` with bound `2^64`. -/
def parseUsize (s : String) : Option Nat :=
  let body := match s.data with
    | '+' :: rest => rest
    | cs => cs
  if body.length > 0 && body.all Char.isDigit then
    if digitsToNat body < 2 ^ 64 then some (digitsToNat body) else none
  else none

/-- The configuration resolved by `main` (main.rs lines 56–78), plus the
warnings printed on the parse-failure arms. -/
structure Config where
  rate : Nat
  concurrency : Nat
  workers : Nat
  warnings : List String
deriving Repr, DecidableEq

/-- The three `match ... parse` blocks of `main` (main.rs lines 56–78):
each flag falls back to its documented default on parse failure and a
warning line is printed; no arm panics or exits. -/
def resolveConfig (rateArg concArg workArg : String) : Config :=
  let rateWarn := "could not parse rate, using default of 1000"
  let concWarn := "could not parse concurrency, using default of 100"
  let workWarn := "could not parse workers, using default of 1"
  let rp := parseU32 rateArg
  let cp := parseU32 concArg
  let wp := parseUsize workArg
  { rate := rp.getD 1000
    concurrency := cp.getD 100
    workers := wp.getD 1
    warnings :=
      (if rp.isNone then [rateWarn] else []) ++
      (if cp.isNone then [concWarn] else []) ++
      (if wp.isNone then [workWarn] else []) }

/-! ### Delivery model for the spmc job queue

Modelled from the spec: the `spmc` crate is external; per the spec the Job
Queue is a single-producer/multi-consumer channel where each enqueued item
is delivered to exactly one consumer (never broadcast). `assign i` names
the consumer that claims the i-th enqueued job of a run with `n` jobs. -/

/-- Modelled from the spec: the indices of the enqueued jobs that consumer
`w` receives, when job `i` is claimed by consumer `assign i`. -/
def workerReceivedIdx (assign : Nat → Nat) (n w : Nat) : List Nat :=
  (List.range n).filter (fun i => assign i = w)

/-- Modelled from the spec: the set of workers (among the `c` spawned on
main.rs lines 96–102) to which the i-th enqueued job is delivered. -/
def deliveredTo (c : Nat) (assign : Nat → Nat) (n i : Nat) : Finset Nat :=
  (Finset.range c).filter (fun w => i ∈ workerReceivedIdx assign n w)

/-! ### Lifecycle model for `main`

Modelled from the spec where the behaviour is the external runtime's or
channel's: the producer task runs `send_url` and drops the sender at end
of input (closing the channel); each of the `concurrency` workers loops in
`rx.recv()`, which returns `Err` only once the channel is closed and
drained, ending the loop; `main` awaits `workers.collect()` (main.rs line
103) before `rt.shutdown_background()` (line 104). -/

/-- A pipeline state: remaining input lines of the producer, the queue
contents, whether the producer has closed the channel, how many worker
receive loops are still running, and whether `main` has reached
`rt.shutdown_background()`. -/
structure SysState where
  input : List String
  queue : List Job
  closed : Bool
  running : Nat
  poolShutdown : Bool
deriving Repr, DecidableEq

/-- One atomic step of the pipeline. `produce`: the producer sends the next
line as a job (send_url loop body). `close`: at end of input the producer
returns and the sender is dropped, closing the channel. `recv`: a running
worker claims the job at the head of the queue. `workerExit`: a worker's
`rx.recv()` returns `Err` — modelled from the spec, this happens only once
the channel is closed and drained — and its loop ends. `shutdown`: `main`
finishes `workers.collect().await` and calls `rt.shutdown_background()`,
enabled only when no worker loop is still running. -/
inductive Step : SysState → SysState → Prop where
  | produce (l : String) (rest : List String) (q : List Job) (r : Nat) :
      Step ⟨l :: rest, q, false, r, false⟩
        ⟨rest, q ++ [mkJob l], false, r, false⟩
  | close (q : List Job) (r : Nat) :
      Step ⟨[], q, false, r, false⟩ ⟨[], q, true, r, false⟩
  | recv (inp : List String) (j : Job) (q : List Job) (cl : Bool) (r : Nat) :
      Step ⟨inp, j :: q, cl, r + 1, false⟩ ⟨inp, q, cl, r + 1, false⟩
  | workerExit (inp : List String) (r : Nat) :
      Step ⟨inp, [], true, r + 1, false⟩ ⟨inp, [], true, r, false⟩
  | shutdown (inp : List String) (q : List Job) (cl : Bool) :
      Step ⟨inp, q, cl, 0, false⟩ ⟨inp, q, cl, 0, true⟩

/-- The initial state of `main`: the whole input ahead of the producer, an
empty queue, channel open, `concurrency` worker loops running, pool alive. -/
def initState (concurrency : Nat) (lines : List String) : SysState :=
  ⟨lines, [], false, concurrency, false⟩

/-- States the pipeline can reach from `initState`. -/
def Reachable (concurrency : Nat) (lines : List String) (s : SysState) : Prop :=
  Relation.ReflTransGen Step (initState concurrency lines) s

/-! ## Helper lemmas -/

/-- A job whose `host` is present never takes the `unwrap` panic branch of
the worker loop body; it is either skipped or printed. -/
theorem parseJob_some_ne_panic (extract : String → Except String TldResult)
    (h : String) :
    parseJob extract { host := some h } ≠ WorkerStep.panic := by
  unfold parseJob
  cases hx : extract h with
  | error e => simp [hx]
  | ok e =>
    obtain ⟨dom, sfx⟩ := e
    cases dom <;> cases sfx <;> simp [hx]

/-- If every remaining read succeeds, the producer loop runs to completion
(no panic), whatever the send outcomes are. -/
theorem send_url_total (sendOk : Nat → Bool)
    (lines : List (Except Unit String)) (st : ProducerState)
    (h : ∀ l ∈ lines, ∃ host, l = Except.ok host) :
    (send_url sendOk lines st).isSome = true := by
  induction lines generalizing st with
  | nil => simp [send_url]
  | cons l rest ih =>
    obtain ⟨host, rfl⟩ := h l (List.mem_cons_self l rest)
    have hr : ∀ l ∈ rest, ∃ host, l = Except.ok host :=
      fun l hl => h l (List.mem_cons_of_mem _ hl)
    by_cases hs : sendOk st.permitsUsed <;> simp [send_url, hs, ih _ hr]

/-- Every job the producer hands to the channel has its `host` field set. -/
theorem send_url_sent_host_isSome (sendOk : Nat → Bool)
    (lines : List (Except Unit String)) (st st' : ProducerState)
    (h0 : ∀ j ∈ st.sent, j.host.isSome = true)
    (hrun : send_url sendOk lines st = some st') :
    ∀ j ∈ st'.sent, j.host.isSome = true := by
  induction lines generalizing st with
  | nil =>
    simp only [send_url, Option.some.injEq] at hrun
    exact hrun ▸ h0
  | cons l rest ih =>
    cases l with
    | error e => simp [send_url] at hrun
    | ok host =>
      cases hs : sendOk st.permitsUsed with
      | true =>
        simp only [send_url, hs, if_true] at hrun
        refine ih _ ?_ hrun
        intro j hj
        rcases List.mem_append.mp hj with hj | hj
        · exact h0 j hj
        · simp only [List.mem_singleton] at hj
          simp [hj, mkJob]
      | false =>
        simp only [send_url, hs, Bool.false_eq_true, if_false] at hrun
        exact ih { sent := st.sent, permitsUsed := st.permitsUsed + 1 } h0 hrun

/-! ## Claims -/

/-- Claim C1 (code defect): the producer does NOT recover from a failed
line read. `send_url` calls `line.unwrap()` (main.rs line 121), so the
first read error panics the producer task and ends its loop: on the input
`[ok "a", read-error, ok "b"]` the run is a panic (`none`) — the line is
not skipped and `"b"` is never admitted, contrary to the claim and to the
spec requirement of skip-and-continue. -/
theorem C1_read_error_panics_producer :
    send_url (fun _ => true)
      [Except.ok "a", Except.error (), Except.ok "b"] ⟨[], 0⟩ = none := by
  rfl

/-- Claim C2: a job whose host extracts to a present domain and a present
suffix produces exactly the output line `domain ++ "." ++ suffix`, and the
whole loop output for `job :: rest` is that single line prepended to the
output for `rest` — nothing else is emitted for that job. -/
theorem C2_success_emits_exactly_one_line
    (extract : String → Except String TldResult) (h d sfx : String)
    (rest : List Job)
    (hx : extract h = Except.ok ⟨some d, some sfx⟩) :
    parseJob extract (mkJob h) = WorkerStep.output (d ++ "." ++ sfx) ∧
    run_parser_loop extract (mkJob h :: rest) =
      Option.map (fun out => (d ++ "." ++ sfx) :: out)
        (run_parser_loop extract rest) := by
  have hp : parseJob extract (mkJob h) = WorkerStep.output (d ++ "." ++ sfx) := by
    simp [parseJob, mkJob, hx]
  exact ⟨hp, by simp [run_parser_loop, hp]⟩

/-- Claim C2 witness at a concrete extractor and host. -/
theorem C2_success_emits_exactly_one_line_witness :
    parseJob (fun _ => Except.ok ⟨some "example", some "com"⟩)
        (mkJob "www.example.com") =
      WorkerStep.output ("example" ++ "." ++ "com") ∧
    run_parser_loop (fun _ => Except.ok ⟨some "example", some "com"⟩)
        [mkJob "www.example.com"] =
      Option.map (fun out => ("example" ++ "." ++ "com") :: out)
        (run_parser_loop (fun _ => Except.ok ⟨some "example", some "com"⟩) []) :=
  C2_success_emits_exactly_one_line _ "www.example.com" "example" "com" [] rfl

/-- Claim C3: a job whose host fails extraction, or extracts with no
domain, or with no suffix, is skipped silently: the loop output for
`job :: rest` equals the output for `rest` (zero lines for that job, no
error, no retry, and the loop goes on). -/
theorem C3_failure_skipped_silently
    (extract : String → Except String TldResult) (h : String)
    (rest : List Job)
    (hx : (∃ e, extract h = Except.error e) ∨
      (∃ sfx, extract h = Except.ok ⟨none, sfx⟩) ∨
      (∃ d, extract h = Except.ok ⟨some d, none⟩)) :
    parseJob extract (mkJob h) = WorkerStep.skip ∧
    run_parser_loop extract (mkJob h :: rest) =
      run_parser_loop extract rest := by
  have hp : parseJob extract (mkJob h) = WorkerStep.skip := by
    rcases hx with ⟨e, he⟩ | ⟨sfx, he⟩ | ⟨d, he⟩ <;> simp [parseJob, mkJob, he]
  exact ⟨hp, by simp [run_parser_loop, hp]⟩

/-- Claim C3 witness at a concrete failing extractor. -/
theorem C3_failure_skipped_silently_witness :
    parseJob (fun _ => Except.error "no tld") (mkJob "bad..host") =
      WorkerStep.skip ∧
    run_parser_loop (fun _ => Except.error "no tld")
        [mkJob "bad..host", mkJob "x"] =
      run_parser_loop (fun _ => Except.error "no tld") [mkJob "x"] :=
  C3_failure_skipped_silently _ "bad..host" [mkJob "x"] (Or.inl ⟨"no tld", rfl⟩)

/-- Claim C5 counterexample: on the empty input line, the producer does
consume a rate-limiter permit and does enqueue a job — the run ends with
one job `{ host := some "" }` sent and one permit used, not with the
empty-line state the claim demands. -/
theorem C5_counterexample_empty_line_enqueued :
    send_url (fun _ => true) [Except.ok ""] ⟨[], 0⟩ =
      some ⟨[mkJob ""], 1⟩ ∧
    ¬ send_url (fun _ => true) [Except.ok ""] ⟨[], 0⟩ = some ⟨[], 0⟩ := by
  constructor
  · rfl
  · intro hc
    rw [show send_url (fun _ => true) [Except.ok ""] ⟨[], 0⟩ =
        some ⟨[mkJob ""], 1⟩ from rfl] at hc
    simp [mkJob] at hc

/-- Claim C5 as amended: the producer filters nothing: every successfully
read line, the empty line included, consumes one permit and is enqueued
as a job (when the send succeeds). -/
theorem C5_amended_every_line_enqueued (host : String)
    (rest : List (Except Unit String)) (st : ProducerState) :
    send_url (fun _ => true) (Except.ok host :: rest) st =
      send_url (fun _ => true) rest
        { sent := st.sent ++ [mkJob host], permitsUsed := st.permitsUsed + 1 } := by
  simp [send_url]

/-- Claim C6: when the send attempt fails (no consumers left), the job is
dropped — the sent list is unchanged — and the loop continues with the
remaining lines; with all remaining reads succeeding the producer still
terminates normally (no panic). -/
theorem C6_send_failure_drops_job_and_continues
    (sendOk : Nat → Bool) (host : String)
    (rest : List (Except Unit String)) (st : ProducerState)
    (hfail : sendOk st.permitsUsed = false)
    (hrest : ∀ l ∈ rest, ∃ h, l = Except.ok h) :
    send_url sendOk (Except.ok host :: rest) st =
      send_url sendOk rest { sent := st.sent, permitsUsed := st.permitsUsed + 1 } ∧
    (send_url sendOk (Except.ok host :: rest) st).isSome = true := by
  have hstep : send_url sendOk (Except.ok host :: rest) st =
      send_url sendOk rest { sent := st.sent, permitsUsed := st.permitsUsed + 1 } := by
    simp [send_url, hfail]
  refine ⟨hstep, ?_⟩
  rw [hstep]
  exact send_url_total _ _ _ hrest

/-- Claim C6 witness: a single line with a dead channel. -/
theorem C6_send_failure_drops_job_and_continues_witness :
    send_url (fun _ => false) [Except.ok "a"] ⟨[], 0⟩ =
      send_url (fun _ => false) [] ⟨[], 1⟩ ∧
    (send_url (fun _ => false) [Except.ok "a"] ⟨[], 0⟩).isSome = true :=
  C6_send_failure_drops_job_and_continues (fun _ => false) "a" [] ⟨[], 0⟩ rfl
    (by intro l hl; cases hl)

/-- Claim C4: delivery is exactly-once: with each of the `n` enqueued
jobs claimed by the in-range consumer `assign i`, job `i` is delivered to
exactly one of the `c` workers; no worker ever holds a duplicate index
(processed at most once); and what a worker does with a producer-built
job is either a silent skip or a single emission — nothing else. -/
theorem C4_exactly_once_delivery
    (c : Nat) (assign : Nat → Nat) (n i : Nat)
    (ha : ∀ j, assign j < c) (hi : i < n) :
    (deliveredTo c assign n i).card = 1 ∧
    (∀ w, (workerReceivedIdx assign n w).Nodup) ∧
    (∀ extract h, parseJob extract (mkJob h) = WorkerStep.skip ∨
      ∃ out, parseJob extract (mkJob h) = WorkerStep.output out) := by
  refine ⟨?_, ?_, ?_⟩
  · have hset : deliveredTo c assign n i = {assign i} := by
      ext w
      simp only [deliveredTo, workerReceivedIdx, Finset.mem_filter,
        Finset.mem_range, List.mem_filter, List.mem_range,
        Finset.mem_singleton, decide_eq_true_eq]
      constructor
      · rintro ⟨-, -, hw⟩
        exact hw.symm
      · rintro rfl
        exact ⟨ha i, hi, rfl⟩
    rw [hset, Finset.card_singleton]
  · intro w
    exact (List.nodup_range n).filter _
  · intro extract h
    cases hx : extract h with
    | error e => exact Or.inl (by simp [parseJob, mkJob, hx])
    | ok e =>
      obtain ⟨dom, sfx⟩ := e
      cases dom with
      | none => exact Or.inl (by simp [parseJob, mkJob, hx])
      | some d =>
        cases sfx with
        | none => exact Or.inl (by simp [parseJob, mkJob, hx])
        | some s => exact Or.inr ⟨d ++ "." ++ s, by simp [parseJob, mkJob, hx]⟩

/-- Claim C4 witness: two workers, three jobs, all claimed by worker 0. -/
theorem C4_exactly_once_delivery_witness :
    (deliveredTo 2 (fun _ => 0) 3 1).card = 1 ∧
    (∀ w, (workerReceivedIdx (fun _ => 0) 3 w).Nodup) ∧
    (∀ extract h, parseJob extract (mkJob h) = WorkerStep.skip ∨
      ∃ out, parseJob extract (mkJob h) = WorkerStep.output out) :=
  C4_exactly_once_delivery 2 (fun _ => 0) 3 1 (fun _ => Nat.succ_pos 1)
    (by decide)

/-- Claim C7: in every reachable pipeline state, `main` has called
`rt.shutdown_background()` only if no worker receive loop is still
running; and any step in which a worker loop ends can happen only from a
state where the channel is closed and the queue is drained. Shutdown is
drain-based: there is no step that cancels mid-stream. -/
theorem C7_drain_based_shutdown
    (c : Nat) (lines : List String) (s : SysState)
    (hreach : Reachable c lines s) :
    (s.poolShutdown = true → s.running = 0) ∧
    (∀ s', Step s s' → s'.running < s.running →
      s.closed = true ∧ s.queue = []) := by
  constructor
  · induction hreach with
    | refl => intro h; simp [initState] at h
    | tail hsteps hstep ih =>
      intro h
      cases hstep <;> simp_all
  · intro s' hstep hlt
    cases hstep <;>
      first
        | exact absurd hlt (lt_irrefl _)
        | exact ⟨rfl, rfl⟩

/-- Claim C7 witness: one worker, empty input; the run close → worker
exit → shutdown reaches the terminal state. -/
theorem C7_drain_based_shutdown_witness :
    ((⟨[], [], true, 0, true⟩ : SysState).poolShutdown = true →
      (⟨[], [], true, 0, true⟩ : SysState).running = 0) ∧
    (∀ s', Step ⟨[], [], true, 0, true⟩ s' →
      s'.running < (⟨[], [], true, 0, true⟩ : SysState).running →
      (⟨[], [], true, 0, true⟩ : SysState).closed = true ∧
      (⟨[], [], true, 0, true⟩ : SysState).queue = []) :=
  C7_drain_based_shutdown 1 [] ⟨[], [], true, 0, true⟩
    (Relation.ReflTransGen.tail
      (Relation.ReflTransGen.tail
        (Relation.ReflTransGen.tail Relation.ReflTransGen.refl
          (Step.close [] 1))
        (Step.workerExit [] 0))
      (Step.shutdown [] [] true))

/-- Claim C8: each of the three flags falls back to its documented default
on a failed numeric parse (rate 1000, concurrency 100, workers 1) and the
corresponding warning line is among those printed; the resolution itself
is total — no parse failure is fatal. -/
theorem C8_parse_failure_uses_default_and_warns (r c w : String) :
    (parseU32 r = none → (resolveConfig r c w).rate = 1000 ∧
      "could not parse rate, using default of 1000" ∈
        (resolveConfig r c w).warnings) ∧
    (parseU32 c = none → (resolveConfig r c w).concurrency = 100 ∧
      "could not parse concurrency, using default of 100" ∈
        (resolveConfig r c w).warnings) ∧
    (parseUsize w = none → (resolveConfig r c w).workers = 1 ∧
      "could not parse workers, using default of 1" ∈
        (resolveConfig r c w).warnings) := by
  refine ⟨fun h => ?_, fun h => ?_, fun h => ?_⟩ <;>
    simp [resolveConfig, h, List.mem_append]

/-- Claim C8 witness: three non-numeric flag values. -/
theorem C8_parse_failure_uses_default_and_warns_witness :
    ((resolveConfig "x" "y" "z").rate = 1000 ∧
      "could not parse rate, using default of 1000" ∈
        (resolveConfig "x" "y" "z").warnings) ∧
    ((resolveConfig "x" "y" "z").concurrency = 100 ∧
      "could not parse concurrency, using default of 100" ∈
        (resolveConfig "x" "y" "z").warnings) ∧
    ((resolveConfig "x" "y" "z").workers = 1 ∧
      "could not parse workers, using default of 1" ∈
        (resolveConfig "x" "y" "z").warnings) := by
  obtain ⟨h1, h2, h3⟩ := C8_parse_failure_uses_default_and_warns "x" "y" "z"
  exact ⟨h1 (by decide), h2 (by decide), h3 (by decide)⟩

/-- Claim C9: the flag value `0` parses as a u32, so the resolved rate is
0 (not the default); with rate 0 the `NonZeroU32::new(rate).unwrap()` in
`send_url` is a panic (`none`); for any rate of at least 1 the limiter
construction succeeds. -/
theorem C9_rate_zero_parses_then_limiter_panics (concArg workArg : String) :
    parseU32 "0" = some 0 ∧
    (resolveConfig "0" concArg workArg).rate = 0 ∧
    rateLimiterInit 0 = none ∧
    (∀ rate, 1 ≤ rate → (rateLimiterInit rate).isSome = true) := by
  refine ⟨by decide, ?_, by decide, ?_⟩
  · show (parseU32 "0").getD 1000 = 0
    decide
  · intro rate hr
    simp [rateLimiterInit, nonZeroU32New, Nat.one_le_iff_ne_zero.mp hr]

/-- Claim C9 witness at concrete flag values and rate 5. -/
theorem C9_rate_zero_parses_then_limiter_panics_witness :
    parseU32 "0" = some 0 ∧
    (resolveConfig "0" "a" "b").rate = 0 ∧
    rateLimiterInit 0 = none ∧
    (rateLimiterInit 5).isSome = true := by
  obtain ⟨h1, h2, h3, h4⟩ := C9_rate_zero_parses_then_limiter_panics "a" "b"
  exact ⟨h1, h2, h3, h4 5 (by decide)⟩

/-- Claim C10: every job a `send_url` run hands to the channel has
`host = Some …`, so the worker body applied to such a job never takes the
`job.host.unwrap()` panic branch, although the `Job` type declares the
field optional. -/
theorem C10_sent_jobs_never_panic_worker
    (sendOk : Nat → Bool) (lines : List (Except Unit String))
    (st st' : ProducerState)
    (h0 : ∀ j ∈ st.sent, j.host.isSome = true)
    (hrun : send_url sendOk lines st = some st')
    (extract : String → Except String TldResult)
    (j : Job) (hj : j ∈ st'.sent) :
    j.host.isSome = true ∧ parseJob extract j ≠ WorkerStep.panic := by
  have hsome := send_url_sent_host_isSome sendOk lines st st' h0 hrun j hj
  refine ⟨hsome, ?_⟩
  obtain ⟨h, hh⟩ := Option.isSome_iff_exists.mp hsome
  have hj' : j = { host := some h } := by
    cases j
    simp_all
  rw [hj']
  exact parseJob_some_ne_panic extract h

/-- Claim C10 witness: the single job of a one-line run. -/
theorem C10_sent_jobs_never_panic_worker_witness :
    (mkJob "a").host.isSome = true ∧
    parseJob (fun _ => Except.error "e") (mkJob "a") ≠ WorkerStep.panic :=
  C10_sent_jobs_never_panic_worker (fun _ => true) [Except.ok "a"] ⟨[], 0⟩
    ⟨[mkJob "a"], 1⟩ (by simp) rfl (fun _ => Except.error "e") (mkJob "a")
    (List.mem_singleton.mpr rfl)

end HostParser
